import Mathlib

/-
Shallow embedding of src/app.py of the Vodafone-Chatbot repository.

The pure parts of the program (prompt-template formatting, the string
comparison that routes between the two answer branches, the table-name
membership check, the append-only chat history) are translated directly.
Calls to external collaborators -- the hosted LLM, the MySQL database, the
pandasai analytics library and the filesystem -- are modelled as explicit
oracle parameters collected in an `Env` value.  The Streamlit turn handler
at the bottom of app.py (lines 330-393) becomes the function
`handle_user_input`, which threads the session state explicitly, records
which branch the controller took, and logs the externally observable
calls it performs in a trace of `Effect` values.
-/

namespace Vodafone

/-- One entry of st.session_state.chat_history: an AIMessage or a
HumanMessage, each carrying its content string. -/
inductive Message where
  | ai (content : String)
  | human (content : String)
deriving DecidableEq

/-- Configuration of a ChatGroq model object: the model identifier and the
sampling temperature. -/
structure LLMConfig where
  model : String
  temperature : Nat
deriving DecidableEq

/-- app.py line 38: llm = ChatGroq(model="llama-3.1-70b-versatile", temperature=0). -/
def llm : LLMConfig := ⟨"llama-3.1-70b-versatile", 0⟩

/-- The raw prompt template of check_plotting (app.py lines 66-84).
Apostrophes are written with the escape \x27. -/
def check_plotting_template : String :=
  "\n    You are a pandas ai expert at a company. You are interacting with a user who is asking you questions about the company\x27s database.\n    check that the user\x27s question needs to be potting. Take the conversation history into account.\n    \n    Write only the Boolean Response and nothing else. Do not wrap the Boolean Response in any other text, not even backticks or space.\n    \n    For example:\n    Question: Plot a histogram of countries showing GDP, using different colors for each bar.\n    Boolean Response:True\n    Question: Create a line chart of sales over time?\n    Boolean Response:True\n    Question: How many employees are there?\n    Boolean Response:False\n    \n    Your turn:\n    \n    Question: {question}\n    Boolean Response:\n    "

/-- The raw prompt template of get_sql_table (app.py lines 104-124). -/
def get_sql_table_template : String :=
  "\n    You are a data analyst at a company. You are interacting with a user who is asking you questions about the company\x27s database.\n    Based on the table schema below, extract the table name that would answer the user\x27s question. Take the conversation history into account.\n\n    <SCHEMA>{schema}</SCHEMA>\n    \n    Conversation History: {chat_history}\n    \n    Write only the table name and nothing else. Do not wrap the table name in any other text, not even backticks or space.\n    \n    For example:\n    Question: which 3 artists have the most tracks?\n    SQL Query:Track\n    Question: Name 10 artists\n    SQL Query:Artist\n    \n    Your turn:\n    \n    Question: {question}\n    SQL Query:\n    "

/-- The raw prompt template of get_sql_chain (app.py lines 148-168). -/
def get_sql_chain_template : String :=
  "\n    You are a data analyst at a company. You are interacting with a user who is asking you questions about the company\x27s database.\n    Based on the table schema below, write a SQL query that would answer the user\x27s question. Take the conversation history into account.\n    \n    <SCHEMA>{schema}</SCHEMA>\n    \n    Conversation History: {chat_history}\n    \n    Write only the SQL query and nothing else. Do not wrap the SQL query in any other text, not even backticks.\n    \n    For example:\n    Question: which 3 artists have the most tracks?\n    SQL Query: SELECT ArtistId, COUNT(*) as track_count FROM Track GROUP BY ArtistId ORDER BY track_count DESC LIMIT 3;\n    Question: Name 10 artists\n    SQL Query: SELECT Name FROM Artist LIMIT 10;\n    \n    Your turn:\n    \n    Question: {question}\n    SQL Query:\n    "

/-- The raw prompt template of the answer-synthesis chain built inside
get_response (app.py lines 196-204). -/
def get_response_template : String :=
  "\n    You are a data analyst at a company. You are interacting with a user who is asking you questions about the company\x27s database.\n    Based on the table schema below, question, sql query, and sql response, write a natural language response.\n    <SCHEMA>{schema}</SCHEMA>\n\n    Conversation History: {chat_history}\n    SQL Query: <SQL>{query}</SQL>\n    User question: {question}\n    SQL Response: {response}"

/-- A LangChain chain as built by the four chain constructors: a prompt
template piped into a chat model (followed by StrOutputParser).  What the
embedding keeps of such a chain is its template text and the model
configuration it is piped into. -/
structure Chain where
  template : String
  model : LLMConfig

/-- app.py lines 59-92: check_plotting() builds prompt | llm | StrOutputParser(). -/
def check_plotting : Chain := ⟨check_plotting_template, llm⟩

/-- app.py lines 94-136: get_sql_table(db) builds its prompt | llm | StrOutputParser(). -/
def get_sql_table : Chain := ⟨get_sql_table_template, llm⟩

/-- app.py lines 138-180: get_sql_chain(db) builds its prompt | llm | StrOutputParser(). -/
def get_sql_chain : Chain := ⟨get_sql_chain_template, llm⟩

/-- The answer-synthesis chain built inside get_response (app.py lines 206-216). -/
def get_response_chain : Chain := ⟨get_response_template, llm⟩

/-- All chains the program builds, in source order. -/
def all_chains : List Chain :=
  [check_plotting, get_sql_table, get_sql_chain, get_response_chain]

/-- app.py line 364: SmartDataframe(connector, config={"llm": llm}) hands the
same shared model object to the pandasai library. -/
def smart_dataframe_config_llm : LLMConfig := llm

/-- Substitution of template variables: each {name} placeholder is replaced
by its value, mirroring what ChatPromptTemplate.from_template(...).invoke
does with the variables the caller passes. -/
def formatTemplate (template : String) (vars : List (String × String)) : String :=
  vars.foldl (fun acc kv => acc.replace ("\x7b" ++ kv.1 ++ "\x7d") kv.2) template

/-- Rendering of a message for interpolation into a prompt, abstracting the
str() form Python gives a langchain message. -/
def message_repr : Message → String
  | .ai c => "AIMessage(content=\x27" ++ c ++ "\x27)"
  | .human c => "HumanMessage(content=\x27" ++ c ++ "\x27)"

/-- Rendering of the chat-history list for interpolation into a prompt,
abstracting the str() form Python gives a list of messages. -/
def historyText (h : List Message) : String :=
  "[" ++ String.intercalate ", " (h.map message_repr) ++ "]"

/-- The prompt the classifier chain is invoked on: app.py lines 340-342 pass
only the current utterance as the {question} variable. -/
def check_plotting_prompt (question : String) : String :=
  formatTemplate check_plotting.template [("question", question)]

/-- The prompt the table-resolver chain is invoked on (app.py lines 347-350):
schema text, conversation history and the utterance. -/
def get_sql_table_prompt (schema chat_history question : String) : String :=
  formatTemplate get_sql_table.template
    [("schema", schema), ("chat_history", chat_history), ("question", question)]

/-- The prompt the SQL-generation chain is invoked on (inside get_response). -/
def get_sql_chain_prompt (schema chat_history question : String) : String :=
  formatTemplate get_sql_chain.template
    [("schema", schema), ("chat_history", chat_history), ("question", question)]

/-- The prompt the answer-synthesis step is invoked on (inside get_response). -/
def get_response_prompt (schema chat_history query question response : String) : String :=
  formatTemplate get_response_chain.template
    [("schema", schema), ("chat_history", chat_history), ("query", query),
     ("question", question), ("response", response)]

/-- The live SQLDatabase handle.  Schema introspection and query execution
go over the network, so both may raise; a raised Python exception is an
`Except.error`.  get_table_names is kept as the table-name list the
introspection returns. -/
structure Database where
  get_table_names : List String
  get_table_info : Except String String
  run : String → Except String String

/-- app.py lines 226-237: table_exists(db, table_name) returns
`table_name in db.get_table_names()` -- exact string membership. -/
def table_exists (db : Database) (table_name : String) : Bool :=
  db.get_table_names.contains table_name

/-- A pandasai MySQLConnector configuration (app.py lines 239-263), with
the port already converted to a number by int(port). -/
structure MySQLConnector where
  host : String
  port : Nat
  database : String
  username : String
  password : String
  table : String

/-- The conversion int(port) of app.py line 257 on the port strings the
claims range over: a nonempty string of decimal digits parses to its
value, anything else raises ValueError (the none case).  Python int()
additionally tolerates surrounding whitespace, a sign and digit
underscores; for such exotic strings this model raises where the program
would pass the parsed value on, which only narrows which states satisfy
the parse hypothesis of the theorems. -/
def parse_port (s : String) : Option Nat :=
  if !s.toList.isEmpty && s.toList.all Char.isDigit then
    some (s.toList.foldl (fun n c => n * 10 + (c.toNat - 48)) 0)
  else none

/-- app.py lines 239-263: init_MySQLConnector_pandasai builds the connector
configuration from the five connection parameters and the table name.  The
conversion int(port) at line 257 raises ValueError for an unparseable port
string, modelled as the error case. -/
def init_MySQLConnector_pandasai (user password host port database table : String) :
    Except String MySQLConnector :=
  match parse_port port with
  | none => .error "ValueError: invalid literal for int() with base 10"
  | some p => .ok ⟨host, p, database, user, password, table⟩

/-- A deterministic LLM endpoint: a prompt goes in, either a completion
string or a raised exception comes back. -/
abbrev Oracle := String → Except String String

/-- The external collaborators of one turn: the LLM endpoint, the pandasai
SmartDataframe.chat answer, and the filesystem contents (the chart file
the library may or may not have written). -/
structure Env where
  oracle : Oracle
  pandas_chat : String → String
  fs : String → Option String

/-- Externally observable calls a turn performs, in order.  A display
effect records the role of the chat bubble (st.chat_message("Human") or
st.chat_message("AI")) together with the markdown text shown in it. -/
inductive Effect where
  | llmCall (prompt : String)
  | dbInfo
  | dbRun (query : String)
  | dbTables
  | connectorInit
  | pandasChat (question : String)
  | fsRead (path : String)
  | display (role : String) (text : String)
  | displayImage
deriving DecidableEq

/-- Which of the two answer branches the controller entered (app.py line 344). -/
inductive Branch where
  | visualization
  | sql
deriving DecidableEq

/-- An uncaught Python exception ending the turn: the AttributeError from
st.session_state.db when no connection was stored, the PIL error from
opening a missing chart file, or any other exception an external call
raised outside a try block. -/
inductive TurnError where
  | missingDb
  | missingImage
  | uncaught (msg : String)
deriving DecidableEq

/-- app.py line 224: the generic apology get_response substitutes for any
exception from the SQL pipeline. -/
def generic_apology : String :=
  "Sorry, I couldn\x27t find any data related to your question. Please try asking something else."

/-- app.py line 386: the fallback apology of the visualization branch when
the resolved table is not in the database. -/
def fallback_response : String :=
  "I\x27m sorry, but I couldn\x27t find the information you\x27re looking for in the database."

/-- app.py line 368: the fixed filesystem path the chart is read from. -/
def image_path : String :=
  "C:\\Users\\moham\\Desktop\\Projects\\Vodafone-Chatbot\\src\\exports\\charts\\temp_chart.png"

/-- The chain get_response invokes (app.py lines 208-222): the SQL-generation
sub-chain fetches the schema and generates a query, the outer assign fetches
the schema again and runs the query, and the synthesis prompt goes to the
model.  Any step may raise; the first raised exception is the result.  The
second component is the trace of external calls made before returning. -/
def response_chain (oracle : Oracle) (user_query : String) (db : Database)
    (chat_history : List Message) : Except String String × List Effect :=
  match db.get_table_info with
  | .error e => (.error e, [.dbInfo])
  | .ok schema0 =>
    let sqlPrompt := get_sql_chain_prompt schema0 (historyText chat_history) user_query
    match oracle sqlPrompt with
    | .error e => (.error e, [.dbInfo, .llmCall sqlPrompt])
    | .ok query =>
      match db.get_table_info with
      | .error e => (.error e, [.dbInfo, .llmCall sqlPrompt, .dbInfo])
      | .ok schema =>
        match db.run query with
        | .error e => (.error e, [.dbInfo, .llmCall sqlPrompt, .dbInfo, .dbRun query])
        | .ok sqlResponse =>
          let finalPrompt :=
            get_response_prompt schema (historyText chat_history) query user_query sqlResponse
          match oracle finalPrompt with
          | .error e =>
            (.error e, [.dbInfo, .llmCall sqlPrompt, .dbInfo, .dbRun query, .llmCall finalPrompt])
          | .ok answer =>
            (.ok answer, [.dbInfo, .llmCall sqlPrompt, .dbInfo, .dbRun query, .llmCall finalPrompt])

/-- app.py lines 182-224: get_response wraps the chain invocation in
try/except and replaces any raised exception with the generic apology, so
it always returns a string.  The second component is the trace of external
calls. -/
def get_response (oracle : Oracle) (user_query : String) (db : Database)
    (chat_history : List Message) : String × List Effect :=
  match response_chain oracle user_query db chat_history with
  | (.ok r, fx) => (r, fx)
  | (.error _, fx) => (generic_apology, fx)

/-- The ASCII whitespace characters Python str.strip() removes (the claims
only concern ASCII input). -/
def pyIsSpace (c : Char) : Bool :=
  c == ' ' || c == '\t' || c == '\n' || c == '\r' || c == '\x0b' || c == '\x0c'

/-- user_query.strip() == "" : the utterance is empty or all whitespace. -/
def strip_is_empty (s : String) : Bool :=
  s.toList.all pyIsSpace

/-- The pieces of st.session_state the turn handler reads or writes: the
chat history, the stored connection (absent until the Connect button
succeeded), the values the handler stores back, and the five sidebar
connection parameters. -/
structure SessionState where
  chat_history : List Message
  db : Option Database
  boolean_plotting : Option String
  table_name : Option String
  my_connector : Option MySQLConnector
  user : String
  password : String
  host : String
  port : String
  database : String

/-- The outcome of one execution of the turn handler: the session state
after the turn, which branch was entered (none when the turn was skipped
or the classifier call itself raised), the uncaught exception if the
script run died, and the trace of external calls. -/
structure TurnResult where
  state : SessionState
  branch : Option Branch
  error : Option TurnError
  effects : List Effect

/-- The visualization branch (app.py lines 346-388), entered with the state
already holding the appended human message.  Accessing st.session_state.db
raises when no connection is stored; otherwise the table resolver runs and
table_exists gates between the fixed fallback apology and building the
connector -- whose int(port) conversion may itself raise, ending the turn
before the pandasai call -- followed by the unchecked read of the chart
file at the fixed path. -/
def run_viz_branch (env : Env) (st : SessionState) (q : String) :
    SessionState × Option TurnError × List Effect :=
  match st.db with
  | none => (st, some .missingDb, [])
  | some db =>
    match db.get_table_info with
    | .error e => (st, some (.uncaught e), [.dbInfo])
    | .ok schema =>
      let rPrompt := get_sql_table_prompt schema (historyText st.chat_history) q
      match env.oracle rPrompt with
      | .error e => (st, some (.uncaught e), [.dbInfo, .llmCall rPrompt])
      | .ok tname =>
        let st := { st with table_name := some tname }
        if table_exists db tname then
          match init_MySQLConnector_pandasai st.user st.password st.host st.port
            st.database tname with
          | .error e =>
            (st, some (.uncaught e), [.dbInfo, .llmCall rPrompt, .dbTables])
          | .ok conn =>
            let st := { st with my_connector := some conn }
            let response := env.pandas_chat q
            let fx : List Effect :=
              [.dbInfo, .llmCall rPrompt, .dbTables, .connectorInit, .pandasChat q,
               .fsRead image_path]
            match env.fs image_path with
            | none => (st, some .missingImage, fx)
            | some _ =>
              ({ st with chat_history := st.chat_history ++ [.ai response] }, none,
               fx ++ [.displayImage, .fsRead image_path])
        else
          ({ st with chat_history := st.chat_history ++ [.ai fallback_response] }, none,
           [.dbInfo, .llmCall rPrompt, .dbTables, .display "AI" fallback_response])

/-- The SQL-answering branch (app.py lines 390-393): accessing
st.session_state.db raises when no connection is stored; otherwise
get_response always yields a string, which is displayed and appended. -/
def run_sql_branch (env : Env) (st : SessionState) (q : String) :
    SessionState × Option TurnError × List Effect :=
  match st.db with
  | none => (st, some .missingDb, [])
  | some db =>
    match get_response env.oracle q db st.chat_history with
    | (response, rfx) =>
      ({ st with chat_history := st.chat_history ++ [.ai response] }, none,
       rfx ++ [.display "AI" response])

/-- The session state right after app.py line 332 appended the human
message of the turn. -/
def turn_pre_state (st : SessionState) (q : String) : SessionState :=
  { st with chat_history := st.chat_history ++ [Message.human q] }

/-- The session state right after app.py line 340 also stored the
classifier output in st.session_state.boolean_plotting. -/
def turn_routed_state (st : SessionState) (q bp : String) : SessionState :=
  { turn_pre_state st q with boolean_plotting := some bp }

/-- The turn handler (app.py lines 330-393).  A None or all-whitespace
input is skipped entirely; otherwise the human message is appended and
displayed, the classifier chain is invoked on the utterance alone, and its
output routes by exact comparison with "True" between the visualization
branch and the SQL branch. -/
def handle_user_input (env : Env) (st0 : SessionState) (user_query : Option String) :
    TurnResult :=
  match user_query with
  | none => ⟨st0, none, none, []⟩
  | some q =>
    if strip_is_empty q then ⟨st0, none, none, []⟩
    else
      let clsPrompt := check_plotting_prompt q
      match env.oracle clsPrompt with
      | .error e =>
        ⟨turn_pre_state st0 q, none, some (.uncaught e),
         [.display "Human" q, .llmCall clsPrompt]⟩
      | .ok bp =>
        if bp == "True" then
          match run_viz_branch env (turn_routed_state st0 q bp) q with
          | (s, err, f) =>
            ⟨s, some .visualization, err, [.display "Human" q, .llmCall clsPrompt] ++ f⟩
        else
          match run_sql_branch env (turn_routed_state st0 q bp) q with
          | (s, err, f) =>
            ⟨s, some .sql, err, [.display "Human" q, .llmCall clsPrompt] ++ f⟩

/-- Sequential turns: each turn starts from the session state the previous
one left behind (Streamlit reruns the script with the surviving
st.session_state even after an uncaught exception). -/
def run_turns (env : Env) : SessionState → List (Option String) → SessionState
  | st, [] => st
  | st, q :: qs => run_turns env (handle_user_input env st q).state qs

/-- The prompt of the first LLM call in a trace. -/
def first_llm_call : List Effect → Option String
  | [] => none
  | .llmCall p :: _ => some p
  | _ :: rest => first_llm_call rest

/-- A small concrete database for witnesses: one table named Employee. -/
def demo_db : Database :=
  ⟨["Employee"], .ok "CREATE TABLE Employee (id INTEGER)", fun _ => .ok "[(8,)]"⟩

/-- A database whose run member raises, simulating a connection failure
during SQL execution. -/
def demo_db_fail : Database :=
  ⟨["Employee"], .ok "CREATE TABLE Employee (id INTEGER)", fun _ => .error "connection failure"⟩

/-- A database whose only table is named True, so that a constant oracle
answering True both routes to the visualization branch and resolves to a
table that exists. -/
def demo_db_true : Database :=
  ⟨["True"], .ok "CREATE TABLE True (id INTEGER)", fun _ => .ok "[]"⟩

/-- An environment whose model always answers False: every turn routes to
the SQL branch. -/
def demo_env_sql : Env :=
  ⟨fun _ => .ok "False", fun _ => "chart description", fun _ => none⟩

/-- An environment whose model always answers True and whose filesystem is
empty: the visualization branch runs and the chart file is absent. -/
def demo_env_viz : Env :=
  ⟨fun _ => .ok "True", fun _ => "chart description", fun _ => none⟩

/-- A session state holding a stored connection to demo_db. -/
def demo_state : SessionState :=
  ⟨[.ai "Hello! How can I assist you?"], some demo_db, none, none, none,
   "root", "root123", "localhost", "3306", "Chinook"⟩

/-- A session state holding a stored connection to demo_db_true. -/
def demo_state_true : SessionState :=
  ⟨[.ai "Hello! How can I assist you?"], some demo_db_true, none, none, none,
   "root", "root123", "localhost", "3306", "Chinook"⟩

/-- A session state in which no Connect click has stored a connection. -/
def demo_state_nodb : SessionState :=
  ⟨[.ai "Hello! How can I assist you?"], none, none, none, none,
   "root", "root123", "localhost", "3306", "Chinook"⟩

@[simp] theorem turn_pre_state_chat_history (st : SessionState) (q : String) :
    (turn_pre_state st q).chat_history = st.chat_history ++ [Message.human q] := rfl

@[simp] theorem turn_pre_state_db (st : SessionState) (q : String) :
    (turn_pre_state st q).db = st.db := rfl

@[simp] theorem turn_routed_state_chat_history (st : SessionState) (q bp : String) :
    (turn_routed_state st q bp).chat_history = st.chat_history ++ [Message.human q] := rfl

@[simp] theorem turn_routed_state_db (st : SessionState) (q bp : String) :
    (turn_routed_state st q bp).db = st.db := rfl

@[simp] theorem turn_routed_state_table_name (st : SessionState) (q bp : String) :
    (turn_routed_state st q bp).table_name = st.table_name := rfl

@[simp] theorem turn_routed_state_my_connector (st : SessionState) (q bp : String) :
    (turn_routed_state st q bp).my_connector = st.my_connector := rfl

@[simp] theorem turn_routed_state_user (st : SessionState) (q bp : String) :
    (turn_routed_state st q bp).user = st.user := rfl

@[simp] theorem turn_routed_state_password (st : SessionState) (q bp : String) :
    (turn_routed_state st q bp).password = st.password := rfl

@[simp] theorem turn_routed_state_host (st : SessionState) (q bp : String) :
    (turn_routed_state st q bp).host = st.host := rfl

@[simp] theorem turn_routed_state_port (st : SessionState) (q bp : String) :
    (turn_routed_state st q bp).port = st.port := rfl

@[simp] theorem turn_routed_state_database (st : SessionState) (q bp : String) :
    (turn_routed_state st q bp).database = st.database := rfl

/-- Claim C8: a chat input that is None or consists only of whitespace is
skipped entirely: the session state, chat history included, is unchanged
and no LLM call, database access or any other external call is made. -/
theorem claim_C8 (env : Env) (st : SessionState) (inp : Option String)
    (h : inp = none ∨ ∃ q, inp = some q ∧ strip_is_empty q = true) :
    handle_user_input env st inp = ⟨st, none, none, []⟩ := by
  rcases h with rfl | ⟨q, rfl, hq⟩
  · rfl
  · simp [handle_user_input, hq]

/-- Witness for C8 at the concrete whitespace input. -/
theorem claim_C8_witness :
    handle_user_input demo_env_sql demo_state (some "   ") = ⟨demo_state, none, none, []⟩ :=
  claim_C8 demo_env_sql demo_state (some "   ") (Or.inr ⟨"   ", rfl, rfl⟩)

/-- Claim C9: table_exists is exact string membership of the resolver
output in the introspected table-name list; a name differing only in
casing or in surrounding whitespace is absent. -/
theorem claim_C9 :
    (∀ (db : Database) (n : String), table_exists db n = true ↔ n ∈ db.get_table_names)
    ∧ table_exists demo_db "employee" = false
    ∧ table_exists demo_db "Employee " = false
    ∧ table_exists demo_db " Employee" = false
    ∧ table_exists demo_db "Employee" = true := by
  refine ⟨fun db n => ?_, by decide, by decide, by decide, by decide⟩
  simp [table_exists]

/-- Witness for C9 at a concrete table name present in the list. -/
theorem claim_C9_witness : table_exists demo_db "Employee" = true :=
  (claim_C9.1 demo_db "Employee").mpr (by decide)

/-- Claim C3: whenever the three-stage SQL pipeline raises anywhere, the
outer try/except of get_response replaces the exception with the one
generic apology string, so get_response always returns a string to its
caller. -/
theorem claim_C3 (oracle : Oracle) (q : String) (db : Database)
    (hist : List Message) (e : String)
    (h : (response_chain oracle q db hist).1 = .error e) :
    (get_response oracle q db hist).1 = generic_apology := by
  unfold get_response
  rcases hrc : response_chain oracle q db hist with ⟨res, fx⟩
  rw [hrc] at h
  simp only at h
  subst h
  simp

/-- Witness for C3: a database whose execution stage raises a connection
failure yields exactly the generic apology. -/
theorem claim_C3_witness :
    (get_response demo_env_sql.oracle "How many employees are there?" demo_db_fail
      demo_state.chat_history).1 = generic_apology :=
  claim_C3 demo_env_sql.oracle "How many employees are there?" demo_db_fail
    demo_state.chat_history "connection failure" rfl

/-- Claim C1: the controller enters the visualization branch exactly when
the classifier chain output is the literal string True; any other output,
malformed ones included, routes to the SQL branch. -/
theorem claim_C1 (env : Env) (st : SessionState) (q bp : String)
    (hq : strip_is_empty q = false)
    (hcls : env.oracle (check_plotting_prompt q) = .ok bp) :
    (handle_user_input env st (some q)).branch
      = some (if bp == "True" then Branch.visualization else Branch.sql) := by
  unfold handle_user_input
  simp only [hq, Bool.false_eq_true, if_false, hcls]
  cases hbp : bp == "True" <;> simp only [hbp, Bool.false_eq_true, if_false, if_true]

/-- Witness for C1: with a classifier answering the literal True the
visualization branch is entered. -/
theorem claim_C1_witness :
    (handle_user_input demo_env_viz demo_state
        (some "Plot a histogram of country vs GDP")).branch
      = some (if "True" == "True" then Branch.visualization else Branch.sql) :=
  claim_C1 demo_env_viz demo_state "Plot a histogram of country vs GDP" "True" rfl rfl

/-- Claim C2: on a visualization turn whose resolved table name is not in
the database table-name list, the user-visible output is exactly the fixed
fallback apology, it becomes the AI entry of the turn, and no pandasai
connector is constructed. -/
theorem claim_C2 (env : Env) (st : SessionState) (q : String) (db : Database)
    (schema tname : String)
    (hq : strip_is_empty q = false)
    (hdb : st.db = some db)
    (hcls : env.oracle (check_plotting_prompt q) = .ok "True")
    (hinfo : db.get_table_info = .ok schema)
    (hres : env.oracle (get_sql_table_prompt schema
      (historyText (st.chat_history ++ [.human q])) q) = .ok tname)
    (htab : table_exists db tname = false) :
    (handle_user_input env st (some q)).state.chat_history
        = st.chat_history ++ [.human q, .ai fallback_response]
    ∧ Effect.display "AI" fallback_response ∈ (handle_user_input env st (some q)).effects
    ∧ Effect.connectorInit ∉ (handle_user_input env st (some q)).effects
    ∧ (handle_user_input env st (some q)).state.my_connector = st.my_connector
    ∧ (handle_user_input env st (some q)).error = none := by
  unfold handle_user_input run_viz_branch
  simp [hq, hcls, hdb, hinfo, hres, htab]

/-- Witness for C2: a resolver guessing the table True against a database
whose only table is Employee triggers the fallback apology. -/
theorem claim_C2_witness :
    (handle_user_input demo_env_viz demo_state
        (some "Plot a histogram of country vs GDP")).state.chat_history
        = demo_state.chat_history
          ++ [.human "Plot a histogram of country vs GDP", .ai fallback_response]
    ∧ Effect.display "AI" fallback_response
        ∈ (handle_user_input demo_env_viz demo_state
            (some "Plot a histogram of country vs GDP")).effects
    ∧ Effect.connectorInit
        ∉ (handle_user_input demo_env_viz demo_state
            (some "Plot a histogram of country vs GDP")).effects
    ∧ (handle_user_input demo_env_viz demo_state
        (some "Plot a histogram of country vs GDP")).state.my_connector
        = demo_state.my_connector
    ∧ (handle_user_input demo_env_viz demo_state
        (some "Plot a histogram of country vs GDP")).error = none :=
  claim_C2 demo_env_viz demo_state "Plot a histogram of country vs GDP" demo_db
    "CREATE TABLE Employee (id INTEGER)" "True" rfl rfl rfl rfl rfl rfl

/-- Claim C7: on a visualization turn with a valid table, once the
connector is built (the port parses, so int(port) does not raise) the
analytics library is invoked and the chart is read from the single fixed
path with no existence check; when the library produced no file there the
turn dies with the unhandled error of the image read, no apology is
displayed and no AI entry is appended. -/
theorem claim_C7 (env : Env) (st : SessionState) (q : String) (db : Database)
    (schema tname : String) (p : Nat)
    (hq : strip_is_empty q = false)
    (hdb : st.db = some db)
    (hcls : env.oracle (check_plotting_prompt q) = .ok "True")
    (hinfo : db.get_table_info = .ok schema)
    (hres : env.oracle (get_sql_table_prompt schema
      (historyText (st.chat_history ++ [.human q])) q) = .ok tname)
    (htab : table_exists db tname = true)
    (hport : parse_port st.port = some p)
    (hfs : env.fs image_path = none) :
    (handle_user_input env st (some q)).error = some TurnError.missingImage
    ∧ (handle_user_input env st (some q)).state.chat_history
        = st.chat_history ++ [.human q]
    ∧ Effect.fsRead image_path ∈ (handle_user_input env st (some q)).effects
    ∧ Effect.display "AI" fallback_response ∉ (handle_user_input env st (some q)).effects
    ∧ Effect.display "AI" generic_apology ∉ (handle_user_input env st (some q)).effects := by
  unfold handle_user_input run_viz_branch
  simp [hq, hcls, hdb, hinfo, hres, htab, init_MySQLConnector_pandasai, hport, hfs]

/-- Witness for C7: with a table that exists, a parseable port and an
empty filesystem the turn ends in the unhandled missing-image error. -/
theorem claim_C7_witness :
    (handle_user_input demo_env_viz demo_state_true
        (some "Plot a histogram of country vs GDP")).error
        = some TurnError.missingImage
    ∧ (handle_user_input demo_env_viz demo_state_true
        (some "Plot a histogram of country vs GDP")).state.chat_history
        = demo_state_true.chat_history ++ [.human "Plot a histogram of country vs GDP"]
    ∧ Effect.fsRead image_path
        ∈ (handle_user_input demo_env_viz demo_state_true
            (some "Plot a histogram of country vs GDP")).effects
    ∧ Effect.display "AI" fallback_response
        ∉ (handle_user_input demo_env_viz demo_state_true
            (some "Plot a histogram of country vs GDP")).effects
    ∧ Effect.display "AI" generic_apology
        ∉ (handle_user_input demo_env_viz demo_state_true
            (some "Plot a histogram of country vs GDP")).effects :=
  claim_C7 demo_env_viz demo_state_true "Plot a histogram of country vs GDP" demo_db_true
    "CREATE TABLE True (id INTEGER)" "True" 3306 rfl rfl rfl rfl rfl rfl rfl rfl

/-- Claim C10: on any turn processed while no database connection is
stored in the session state, both branches die with the unhandled error
from accessing the stored connection, and no apology of either kind is
displayed. -/
theorem claim_C10 (env : Env) (st : SessionState) (q bp : String)
    (hq : strip_is_empty q = false)
    (hdb : st.db = none)
    (hcls : env.oracle (check_plotting_prompt q) = .ok bp) :
    (handle_user_input env st (some q)).error = some TurnError.missingDb
    ∧ (handle_user_input env st (some q)).state.chat_history
        = st.chat_history ++ [.human q]
    ∧ (handle_user_input env st (some q)).branch
        = some (if bp == "True" then Branch.visualization else Branch.sql)
    ∧ Effect.display "AI" generic_apology ∉ (handle_user_input env st (some q)).effects
    ∧ Effect.display "AI" fallback_response ∉ (handle_user_input env st (some q)).effects := by
  unfold handle_user_input run_viz_branch run_sql_branch
  cases hbp : bp == "True" <;> simp [hq, hcls, hdb, hbp]

/-- Witness for C10: a turn before any Connect click, with the classifier
answering True, dies with the missing-connection error. -/
theorem claim_C10_witness :
    (handle_user_input demo_env_viz demo_state_nodb (some "Plot sales")).error
        = some TurnError.missingDb
    ∧ (handle_user_input demo_env_viz demo_state_nodb (some "Plot sales")).state.chat_history
        = demo_state_nodb.chat_history ++ [.human "Plot sales"]
    ∧ (handle_user_input demo_env_viz demo_state_nodb (some "Plot sales")).branch
        = some (if "True" == "True" then Branch.visualization else Branch.sql)
    ∧ Effect.display "AI" generic_apology
        ∉ (handle_user_input demo_env_viz demo_state_nodb (some "Plot sales")).effects
    ∧ Effect.display "AI" fallback_response
        ∉ (handle_user_input demo_env_viz demo_state_nodb (some "Plot sales")).effects :=
  claim_C10 demo_env_viz demo_state_nodb "Plot sales" "True" rfl rfl rfl

/-- When the visualization branch completes without an uncaught error it
has appended exactly one AI entry to the history it was given. -/
theorem run_viz_branch_success (env : Env) (st : SessionState) (q : String) :
    (run_viz_branch env st q).2.1 = none →
    ∃ r, (run_viz_branch env st q).1.chat_history = st.chat_history ++ [Message.ai r] := by
  unfold run_viz_branch
  cases hdb : st.db with
  | none => simp
  | some db =>
    cases hinfo : db.get_table_info with
    | error e => simp [hinfo]
    | ok schema =>
      cases hres : env.oracle (get_sql_table_prompt schema (historyText st.chat_history) q) with
      | error e => simp [hinfo, hres]
      | ok tname =>
        cases htab : table_exists db tname
        · intro _
          exact ⟨fallback_response, by simp [hinfo, hres, htab]⟩
        · cases hconn : init_MySQLConnector_pandasai st.user st.password st.host st.port
            st.database tname with
          | error e => simp [hinfo, hres, htab, hconn]
          | ok conn =>
            cases hfs : env.fs image_path with
            | none => simp [hinfo, hres, htab, hconn, hfs]
            | some img =>
              intro _
              exact ⟨env.pandas_chat q, by simp [hinfo, hres, htab, hconn, hfs]⟩

/-- The visualization branch never removes history entries. -/
theorem run_viz_branch_tail (env : Env) (st : SessionState) (q : String) :
    ∃ tail, (run_viz_branch env st q).1.chat_history = st.chat_history ++ tail := by
  unfold run_viz_branch
  cases hdb : st.db with
  | none => exact ⟨[], by simp⟩
  | some db =>
    cases hinfo : db.get_table_info with
    | error e => exact ⟨[], by simp [hinfo]⟩
    | ok schema =>
      cases hres : env.oracle (get_sql_table_prompt schema (historyText st.chat_history) q) with
      | error e => exact ⟨[], by simp [hinfo, hres]⟩
      | ok tname =>
        cases htab : table_exists db tname
        · exact ⟨[Message.ai fallback_response], by simp [hinfo, hres, htab]⟩
        · cases hconn : init_MySQLConnector_pandasai st.user st.password st.host st.port
            st.database tname with
          | error e => exact ⟨[], by simp [hinfo, hres, htab, hconn]⟩
          | ok conn =>
            cases hfs : env.fs image_path with
            | none => exact ⟨[], by simp [hinfo, hres, htab, hconn, hfs]⟩
            | some img =>
              exact ⟨[Message.ai (env.pandas_chat q)],
                by simp [hinfo, hres, htab, hconn, hfs]⟩

/-- When the SQL branch completes without an uncaught error it has
appended exactly one AI entry to the history it was given. -/
theorem run_sql_branch_success (env : Env) (st : SessionState) (q : String) :
    (run_sql_branch env st q).2.1 = none →
    ∃ r, (run_sql_branch env st q).1.chat_history = st.chat_history ++ [Message.ai r] := by
  unfold run_sql_branch
  cases hdb : st.db with
  | none => simp
  | some db =>
    cases hgr : get_response env.oracle q db st.chat_history with
    | mk response rfx =>
      intro _
      exact ⟨response, by simp [hgr]⟩

/-- The SQL branch never removes history entries. -/
theorem run_sql_branch_tail (env : Env) (st : SessionState) (q : String) :
    ∃ tail, (run_sql_branch env st q).1.chat_history = st.chat_history ++ tail := by
  unfold run_sql_branch
  cases hdb : st.db with
  | none => exact ⟨[], by simp⟩
  | some db =>
    cases hgr : get_response env.oracle q db st.chat_history with
    | mk response rfx => exact ⟨[Message.ai response], by simp [hgr]⟩

/-- A single turn never removes history entries. -/
theorem handle_user_input_tail (env : Env) (st : SessionState) (inp : Option String) :
    ∃ tail, (handle_user_input env st inp).state.chat_history = st.chat_history ++ tail := by
  cases inp with
  | none => exact ⟨[], by simp [handle_user_input]⟩
  | some q =>
    cases hq : strip_is_empty q
    · cases hc : env.oracle (check_plotting_prompt q) with
      | error e => exact ⟨[Message.human q], by simp [handle_user_input, hq, hc]⟩
      | ok bp =>
        cases hbp : bp == "True"
        · rcases hrs : run_sql_branch env (turn_routed_state st q bp) q with ⟨s, err, f⟩
          obtain ⟨tail, htail⟩ := run_sql_branch_tail env (turn_routed_state st q bp) q
          rw [hrs] at htail
          refine ⟨Message.human q :: tail, ?_⟩
          simpa [handle_user_input, hq, hc, hbp, hrs] using htail
        · rcases hrv : run_viz_branch env (turn_routed_state st q bp) q with ⟨s, err, f⟩
          obtain ⟨tail, htail⟩ := run_viz_branch_tail env (turn_routed_state st q bp) q
          rw [hrv] at htail
          refine ⟨Message.human q :: tail, ?_⟩
          simpa [handle_user_input, hq, hc, hbp, hrv] using htail
    · exact ⟨[], by simp [handle_user_input, hq]⟩

/-- Claim C4: the chat history is append-only.  A turn that completes
without an uncaught error adds exactly one Human entry followed by one AI
entry after the untouched previous entries, and across any sequence of
turns the initial history stays an unchanged prefix. -/
theorem claim_C4 :
    (∀ (env : Env) (st : SessionState) (q : String),
      strip_is_empty q = false →
      (handle_user_input env st (some q)).error = none →
      ∃ r, (handle_user_input env st (some q)).state.chat_history
            = st.chat_history ++ [Message.human q, Message.ai r])
    ∧ ∀ (env : Env) (st : SessionState) (inputs : List (Option String)),
        ∃ tail, (run_turns env st inputs).chat_history = st.chat_history ++ tail := by
  constructor
  · intro env st q hq herr
    rcases hc : env.oracle (check_plotting_prompt q) with e | bp
    · simp [handle_user_input, hq, hc] at herr
    · cases hbp : bp == "True"
      · rcases hrs : run_sql_branch env (turn_routed_state st q bp) q with ⟨s, err, f⟩
        have herr' : err = none := by
          simpa [handle_user_input, hq, hc, hbp, hrs] using herr
        obtain ⟨r, hr⟩ := run_sql_branch_success env (turn_routed_state st q bp) q
          (by rw [hrs]; exact herr')
        rw [hrs] at hr
        have hr' : s.chat_history = st.chat_history ++ [Message.human q, Message.ai r] := by
          simpa using hr
        refine ⟨r, ?_⟩
        simp [handle_user_input, hq, hc, hbp, hrs, hr']
      · rcases hrv : run_viz_branch env (turn_routed_state st q bp) q with ⟨s, err, f⟩
        have herr' : err = none := by
          simpa [handle_user_input, hq, hc, hbp, hrv] using herr
        obtain ⟨r, hr⟩ := run_viz_branch_success env (turn_routed_state st q bp) q
          (by rw [hrv]; exact herr')
        rw [hrv] at hr
        have hr' : s.chat_history = st.chat_history ++ [Message.human q, Message.ai r] := by
          simpa using hr
        refine ⟨r, ?_⟩
        simp [handle_user_input, hq, hc, hbp, hrv, hr']
  · intro env st inputs
    induction inputs generalizing st with
    | nil => exact ⟨[], by simp [run_turns]⟩
    | cons q qs ih =>
      obtain ⟨t1, h1⟩ := handle_user_input_tail env st q
      obtain ⟨t2, h2⟩ := ih (handle_user_input env st q).state
      exact ⟨t1 ++ t2, by rw [run_turns, h2, h1, List.append_assoc]⟩

/-- Witness for C4: one successful SQL turn appends one Human and one AI
entry, and three further turns keep the initial history as a prefix. -/
theorem claim_C4_witness :
    (∃ r, (handle_user_input demo_env_sql demo_state
            (some "How many employees are there?")).state.chat_history
          = demo_state.chat_history
            ++ [Message.human "How many employees are there?", Message.ai r])
    ∧ ∃ tail, (run_turns demo_env_sql demo_state
          [some "one", some "two", some "three"]).chat_history
        = demo_state.chat_history ++ tail :=
  ⟨claim_C4.1 demo_env_sql demo_state "How many employees are there?" rfl rfl,
   claim_C4.2 demo_env_sql demo_state [some "one", some "two", some "three"]⟩

/-- The first LLM call of a processed turn is the classifier invocation,
whose prompt is built from the utterance alone. -/
theorem handle_first_llm (env : Env) (st : SessionState) (q : String)
    (hq : strip_is_empty q = false) :
    first_llm_call (handle_user_input env st (some q)).effects
      = some (check_plotting_prompt q) := by
  rcases hc : env.oracle (check_plotting_prompt q) with e | bp
  · simp [handle_user_input, hq, hc, first_llm_call]
  · cases hbp : bp == "True"
    · rcases hrs : run_sql_branch env (turn_routed_state st q bp) q with ⟨s, err, f⟩
      simp [handle_user_input, hq, hc, hbp, hrs, first_llm_call]
    · rcases hrv : run_viz_branch env (turn_routed_state st q bp) q with ⟨s, err, f⟩
      simp [handle_user_input, hq, hc, hbp, hrv, first_llm_call]

/-- The branch a processed turn takes is a function of the classifier
output alone, independent of the rest of the session state. -/
theorem handle_branch_char (env : Env) (st : SessionState) (q : String)
    (hq : strip_is_empty q = false) :
    (handle_user_input env st (some q)).branch
      = match env.oracle (check_plotting_prompt q) with
        | .error _ => none
        | .ok bp => some (if bp == "True" then Branch.visualization else Branch.sql) := by
  rcases hc : env.oracle (check_plotting_prompt q) with e | bp
  · simp [handle_user_input, hq, hc]
  · cases hbp : bp == "True"
    · rcases hrs : run_sql_branch env (turn_routed_state st q bp) q with ⟨s, err, f⟩
      simp [handle_user_input, hq, hc, hbp, hrs]
    · rcases hrv : run_viz_branch env (turn_routed_state st q bp) q with ⟨s, err, f⟩
      simp [handle_user_input, hq, hc, hbp, hrv]

/-- Claim C5: the classifier call receives only the current utterance:
across two runs that differ in conversation history, stored connection
and schema, and every other piece of session data, the classifier is
invoked on the same prompt, and the resulting branch decision is the
same. -/
theorem claim_C5 (env : Env) (q : String) (st1 st2 : SessionState)
    (hq : strip_is_empty q = false) :
    first_llm_call (handle_user_input env st1 (some q)).effects
        = some (check_plotting_prompt q)
    ∧ first_llm_call (handle_user_input env st2 (some q)).effects
        = first_llm_call (handle_user_input env st1 (some q)).effects
    ∧ (handle_user_input env st1 (some q)).branch
        = (handle_user_input env st2 (some q)).branch := by
  refine ⟨handle_first_llm env st1 q hq, ?_, ?_⟩
  · rw [handle_first_llm env st1 q hq, handle_first_llm env st2 q hq]
  · rw [handle_branch_char env st1 q hq, handle_branch_char env st2 q hq]

/-- Witness for C5 at two session states differing in history, connection
and stored fields. -/
theorem claim_C5_witness :
    first_llm_call (handle_user_input demo_env_sql demo_state (some "Plot sales")).effects
        = some (check_plotting_prompt "Plot sales")
    ∧ first_llm_call (handle_user_input demo_env_sql demo_state_nodb
          (some "Plot sales")).effects
        = first_llm_call (handle_user_input demo_env_sql demo_state (some "Plot sales")).effects
    ∧ (handle_user_input demo_env_sql demo_state (some "Plot sales")).branch
        = (handle_user_input demo_env_sql demo_state_nodb (some "Plot sales")).branch :=
  claim_C5 demo_env_sql "Plot sales" demo_state demo_state_nodb rfl

set_option maxRecDepth 16384 in
/-- Claim C6: the program builds exactly four distinct prompt templates,
every one of its chains is piped into the single shared model object,
that object is configured with the fixed model identifier and temperature
zero, and the pandasai call receives the same shared model. -/
theorem claim_C6 :
    all_chains.length = 4
    ∧ (all_chains.map Chain.template).Nodup
    ∧ all_chains.map Chain.model = [llm, llm, llm, llm]
    ∧ llm.model = "llama-3.1-70b-versatile"
    ∧ llm.temperature = 0
    ∧ smart_dataframe_config_llm = llm := by
  refine ⟨rfl, ?_, rfl, rfl, rfl, rfl⟩
  decide

end Vodafone
